import Mathlib

/-!
Shallow embedding of the per-tab audio-output routing subsystem of the
AudioSelector browser extension, translated from `src/scripts/background.js`
(the `Helpers` key-value store, `SelectAudio.selectDevice`,
`SelectAudio.autoSelectDevice`, `Helpers.wildcardToRegExp`) and from the
content script `src/scripts/audio.js` (`AUDIO_EnumareteDevices`,
`AUDIO_SelectDevice` with its inner `setSinkIdForAll` and `checkSinkIdOnAll`).

JavaScript dynamic values that flow through the in-memory store and the
message results are modelled by `JsVal` (with an `undefined` constructor);
every array this subsystem ever builds holds only primitive elements (tab
ids in the manual-override list; the `[success, label]` result tuples), so
array elements are modelled by the primitive layer `JsPrim`.  JavaScript
truthiness is `jsTruthy`; property access on plain objects is `jget`
(reading an absent property gives `undefined`).  Asynchronous calls are
modelled as pure state passing; a thrown / rejected content-script
computation is an `Except.error`.
-/

namespace AudioSelector

/-- A primitive JavaScript value: `undefined`, `null`, a boolean, a number
(only tab ids occur, modelled as `Nat`) or a string. -/
inductive JsPrim where
  | undefined : JsPrim
  | null : JsPrim
  | bool : Bool → JsPrim
  | num : Nat → JsPrim
  | str : String → JsPrim
deriving Repr, DecidableEq

/-- A JavaScript value as far as the routing subsystem stores or inspects
them: a primitive, or an array of primitives. -/
inductive JsVal where
  | prim : JsPrim → JsVal
  | arr : List JsPrim → JsVal
deriving Repr, DecidableEq

/-- JavaScript truthiness (`undefined`, `null`, `false`, `0` and `""` are
falsy; every array object is truthy). -/
def jsTruthy : JsVal → Bool
  | .prim .undefined => false
  | .prim .null => false
  | .prim (.bool b) => b
  | .prim (.num n) => n != 0
  | .prim (.str s) => s != ""
  | .arr _ => true

/-- JavaScript index access `v[i]` on an array: the element, or `undefined`
past the end. -/
def jsIndex : JsVal → Nat → JsPrim
  | .arr xs, n => xs.getD n .undefined
  | _, _ => .undefined

/-- A plain JavaScript object, as a list of own properties in insertion
order. -/
abbrev JsObj := List (String × JsPrim)

/-- Property read `o.k` on a plain object: the property's value, or
`undefined` when absent. -/
def jget (o : JsObj) (k : String) : JsPrim :=
  match o.find? (fun p => p.1 == k) with
  | some p => p.2
  | none => .undefined

/-- The backing object of `Helpers.store` (background.js:207): keys to
values, later assignments shadowing earlier ones. -/
abbrev Store := List (String × JsVal)

/-- Reading `Helpers.store[key]`: `undefined` when the key was never
assigned. -/
def storeLookup (s : Store) (k : String) : JsVal :=
  match s.find? (fun p => p.1 == k) with
  | some p => p.2
  | none => .prim .undefined

namespace Helpers

/-- `Helpers.get(key, defValue)` (background.js:208-210): the stored value
unless it is `undefined`, else the default. -/
def get (s : Store) (k : String) (defValue : JsVal) : JsVal :=
  if storeLookup s k = .prim .undefined then defValue else storeLookup s k

/-- `Helpers.set(key, value)` (background.js:211-213): plain assignment. -/
def set (s : Store) (k : String) (v : JsVal) : Store :=
  (k, v) :: s

/-- `Helpers.add(key, value)` (background.js:214-220): push onto the stored
array, or start a fresh one-element array when the slot does not hold an
array. -/
def add (s : Store) (k : String) (v : JsPrim) : Store :=
  match storeLookup s k with
  | .arr xs => set s k (.arr (xs ++ [v]))
  | _ => set s k (.arr [v])

/-- `Helpers.has(key, value)` (background.js:221-229): with `value === null`
whether the key is assigned; otherwise array membership (`includes`),
`false` on a non-array slot. -/
def has (s : Store) (k : String) (v : JsPrim) : Bool :=
  if v = .null then
    match storeLookup s k with
    | .prim .undefined => false
    | _ => true
  else
    match storeLookup s k with
    | .arr xs => xs.contains v
    | _ => false

/-- `Helpers.remove(key, value)` (background.js:230-239): with
`value === null` delete the key; otherwise splice out the first occurrence
of the value from the stored array (no-op when absent or when the slot does
not hold an array). -/
def remove (s : Store) (k : String) (v : JsPrim) : Store :=
  if v = .null then s.filter (fun p => p.1 != k)
  else
    match storeLookup s k with
    | .arr xs => set s k (.arr (xs.erase v))
    | _ => s

end Helpers

/-- Whether a character is one of the four JavaScript regular-expression
line terminators, which the `.` atom does not match. -/
def isLineTerm (c : Char) : Bool :=
  c == '\n' || c == '\r' || c == Char.ofNat 0x2028 || c == Char.ofNat 0x2029

/-- Case-insensitive character comparison, modelling the `i` flag that
`Helpers.wildcardToRegExp` puts on the produced regular expression. -/
def ciEq (p c : Char) : Bool :=
  p.toLower == c.toLower

/-- Structural matcher for the anchored regular expression built by
`Helpers.wildcardToRegExp` (background.js:198-205): every regex
metacharacter of the pattern is escaped to a literal except `*`, which
becomes `.*`, and `?`, which becomes `.`; the match is against the whole
string, case-insensitively.  Each recursive call shortens the pattern or
the candidate, so the explicit fuel (here one more than the combined
length) never runs out; it only makes the recursion structural. -/
def globAux : Nat → List Char → List Char → Bool
  | 0, _, _ => false
  | fuel + 1, ps, cs =>
    match ps, cs with
    | [], [] => true
    | [], _ :: _ => false
    | '*' :: ps', [] => globAux fuel ps' []
    | '*' :: ps', c :: cs' =>
        globAux fuel ps' (c :: cs')
          || (!isLineTerm c && globAux fuel ('*' :: ps') cs')
    | '?' :: _, [] => false
    | '?' :: ps', c :: cs' => !isLineTerm c && globAux fuel ps' cs'
    | _ :: _, [] => false
    | p :: ps', c :: cs' => ciEq p c && globAux fuel ps' cs'

/-- The glob matcher at adequate fuel. -/
def globChars (ps cs : List Char) : Bool :=
  globAux (ps.length + cs.length + 1) ps cs

/-- `Helpers.wildcardToRegExp(pattern).test(url)`: the guard for a falsy or
non-string pattern yields `/^$/i`, which only matches the empty string;
otherwise the anchored glob regex above. -/
def wildcardMatch (pattern url : String) : Bool :=
  if pattern = "" then url == ""
  else globChars pattern.toList url.toList

/-- A persisted pattern rule, the element shape of the `patterns` array in
extension storage (fields read by `SelectAudio.autoSelectDevice`).  A
missing/empty field is the empty string; `audioOutputId` is kept as a raw
primitive because the options page may persist a string, `null` or
nothing. -/
structure PatternRule where
  urlPattern : String
  audioOutput : String
  audioOutputId : JsPrim
deriving Repr, DecidableEq

/-- The skip condition of the rule loop (background.js:324):
`!pattern.urlPattern || !pattern.audioOutput || pattern.audioOutput === "Default"`. -/
def ruleInert (r : PatternRule) : Bool :=
  r.urlPattern == "" || r.audioOutput == "" || r.audioOutput == "Default"

/-- The fields of a browser tab that the routing subsystem reads. -/
structure Tab where
  id : Nat
  url : String
deriving Repr, DecidableEq

/-- The key of the manual-override list in `Helpers.store`. -/
def manualKey : String := "manualAudioDevice"

/-- The per-tab device-label memory key
`"deviceId_per_tab_" + tabId + label` (background.js:284,298), built by
JavaScript string concatenation (the tab id renders in decimal). -/
def tabDeviceKey (tabId : Nat) (label : String) : String :=
  "deviceId_per_tab_" ++ Nat.repr tabId ++ label

/-- One invocation of `SelectAudio.selectDevice` that
`SelectAudio.autoSelectDevice` performs, recorded as data: the routing
policy is embedded as the list of selection calls it issues. -/
structure SelectCall where
  tabId : Nat
  label : String
  deviceId : JsPrim
  saveAsManual : Bool
deriving Repr, DecidableEq

/-- The rule iteration of `SelectAudio.autoSelectDevice`
(background.js:323-332): skip inert rules, and at the first rule whose
pattern matches the tab URL, call `selectDevice(tab, audioOutput,
audioOutputId, false)` once and return `true`. -/
def autoSelectLoop (tab : Tab) : List PatternRule → Bool × List SelectCall
  | [] => (false, [])
  | r :: rest =>
      if ruleInert r = true then autoSelectLoop tab rest
      else if wildcardMatch r.urlPattern tab.url = true then
        (true, [{ tabId := tab.id, label := r.audioOutput,
                  deviceId := r.audioOutputId, saveAsManual := false }])
      else autoSelectLoop tab rest

/-- `SelectAudio.autoSelectDevice(tab)` (background.js:314-336), with its
effect on the world abstracted into the returned trace of `selectDevice`
calls: bail out on a tab without a URL, bail out when the tab is in the
manual-override list, otherwise run the first-match rule loop over the
persisted patterns. -/
def autoSelectDevice (tab : Tab) (store : Store) (patterns : List PatternRule) :
    Bool × List SelectCall :=
  if tab.url = "" then (false, [])
  else if Helpers.has store manualKey (.num tab.id) = true then (false, [])
  else autoSelectLoop tab patterns

/-- A handler that could be registered on a media element for a
stream-lifecycle event.  The two variants are the watcher actions the
specification describes (clear bookkeeping on `emptied`/`ended`; re-apply
the durable desired sink id on `playing`); which handlers an element
actually carries is determined solely by what the embedded source code
registers. -/
inductive StreamHandler where
  | onTeardownClear : StreamHandler
  | onPlayingReapply : StreamHandler
deriving Repr, DecidableEq

/-- The name of the durable desired-sink attribute the specification
describes.  The model only reads it through `StreamHandler.onPlayingReapply`,
so its exact name is immaterial. -/
def desiredSinkAttr : String := "data-desired-sink-id"

/-- A playable media element (`<audio>`/`<video>`): its current output
device (`sinkId`, `""` is the platform default), its HTML attributes, and
the stream-lifecycle handlers registered on it.  A freshly created element
has no extension-written attributes and no handlers. -/
structure MediaElem where
  sinkId : String
  attrs : List (String × String)
  handlers : List StreamHandler
deriving Repr, DecidableEq

/-- The page's media elements, in document order. -/
abbrev Page := List MediaElem

/-- Platform semantics of the `emptied` (or `ended`) stream-lifecycle event:
the stream teardown makes the platform lose the explicit output-device
selection (the element reverts to the default sink), after which any
registered teardown handlers run (their action is bookkeeping only). -/
def fireEmptied (el : MediaElem) : MediaElem :=
  { el with sinkId := "" }

/-- Semantics of the `playing` stream-lifecycle event: the registered
`playing` handlers run; a re-apply watcher (were one registered) would
restore the element's durable desired sink id from its attribute.  An
element with no registered handlers is unchanged. -/
def firePlaying (el : MediaElem) : MediaElem :=
  if el.handlers.contains .onPlayingReapply then
    match el.attrs.find? (fun p => p.1 == desiredSinkAttr) with
    | some p => { el with sinkId := p.2 }
    | none => el
  else el

/-- A content-script error: the only one this embedding needs is the
`TypeError` raised by calling a method that does not exist. -/
inductive JsErr where
  | typeError : String → JsErr
deriving Repr, DecidableEq

/-- One entry of the list `navigator.mediaDevices.enumerateDevices()`
resolves with: a kind (`audioinput` / `audiooutput` / `videoinput`), a
label and a device id. -/
structure RawDevice where
  kind : String
  label : String
  deviceId : String
deriving Repr, DecidableEq

/-- The browser facilities `AUDIO_SelectDevice` touches:  whether
`navigator.mediaDevices.selectAudioOutput` exists; the device list
`enumerateDevices` resolves with; whether `setSinkId(id)` succeeds for a
given id; and the outcome of the `selectAudioOutput` picker (`some` picked
device, or `none` for a rejection whose error carries `promptErrName`).
The picker outcome is modelled independently of the hint object the source
passes to it. -/
structure MediaPlatform where
  selectAudioOutputAvailable : Bool
  rawDevices : List RawDevice
  setSinkIdOk : String → Bool
  prompt : Option RawDevice
  promptErrName : String

/-- The object `AUDIO_EnumareteDevices` pushes for one raw device
(audio.js:17-20): note the id is stored under the property name `id`,
not `deviceId`. -/
def enumEntry (d : RawDevice) : JsObj :=
  [("label", .str d.label), ("id", .str d.deviceId)]

/-- The result shape of `AUDIO_EnumareteDevices`: one bucket per media
device kind. -/
structure MediaDevices where
  audioinput : List JsObj
  audiooutput : List JsObj
  videoinput : List JsObj
deriving Repr, DecidableEq

/-- `AUDIO_EnumareteDevices` (audio.js:3-23): drop devices with an empty
label, then bucket the remainder by kind in order, each as a
`{label, id}` object. -/
def AUDIO_EnumareteDevices (raw : List RawDevice) : MediaDevices :=
  let labeled := raw.filter (fun d => d.label != "")
  { audioinput := (labeled.filter (fun d => d.kind == "audioinput")).map enumEntry
    audiooutput := (labeled.filter (fun d => d.kind == "audiooutput")).map enumEntry
    videoinput := (labeled.filter (fun d => d.kind == "videoinput")).map enumEntry }

/-- JavaScript `haystack.indexOf(needle) >= 0`: the needle occurs as a
substring (always true for the empty needle). -/
def strContainsSub (s sub : String) : Bool :=
  (List.range (s.toList.length + 1)).any
    (fun i => sub.toList.isPrefixOf (s.toList.drop i))

/-- The device lookup of `AUDIO_SelectDevice` (audio.js:54): when the
enumerated output list is non-empty, find by `device.deviceId === deviceId`
when a device id was given (the enumerated objects carry the id under the
property `id`, so this reads `undefined`), else find by
`device.label.indexOf(label) >= 0` when a label was given, else `null`. -/
def findDevice (outputs : List JsObj) (label deviceId : String) : Option JsObj :=
  if outputs.length > 0 then
    if deviceId != "" then
      outputs.find? (fun d => jget d "deviceId" == .str deviceId)
    else if label != "" then
      outputs.find? (fun d =>
        match jget d "label" with
        | .str s => strContainsSub s label
        | _ => false)
    else none
  else none

/-- The inner `setSinkIdForAll(id)` of `AUDIO_SelectDevice`
(audio.js:34-46): walk every media element; where the current sink id
differs, call `setSinkId(id)` — on success the element's sink changes, on
rejection the element is untouched and the overall flag becomes `false`. -/
def setSinkIdForAll (p : MediaPlatform) (id : String) (page : Page) :
    Bool × Page :=
  (page.all (fun el => el.sinkId == id || p.setSinkIdOk id),
   page.map (fun el =>
     if el.sinkId != id && p.setSinkIdOk id then { el with sinkId := id }
     else el))

/-- The inner `checkSinkIdOnAll(id)` of `AUDIO_SelectDevice`
(audio.js:47-51).  The source invokes `.every(...)` directly on the
`NodeList` returned by `document.querySelectorAll("audio, video")`;
`NodeList` has no `every` method, so the invocation raises a `TypeError`
before any element or the id is inspected. -/
def checkSinkIdOnAll (_page : Page) (_id : JsPrim) : Except JsErr Bool :=
  Except.error (.typeError "document.querySelectorAll(...).every is not a function")

/-- Lines 68-80 of audio.js: the `selectAudioOutput` picker fallback.  On a
successful pick, `setSinkIdForAll(device.deviceId)` is fired off (its
result ignored) and `[true, device.label]` is returned; on rejection the
`catch` returns `[false, err.name]`. -/
def promptStep (p : MediaPlatform) (page : Page) : JsVal × Page :=
  match p.prompt with
  | some d =>
      let r := setSinkIdForAll p d.deviceId page
      (.arr [.bool true, .str d.label], r.2)
  | none => (.arr [.bool false, .str p.promptErrName], page)

/-- Lines 62-80 of audio.js, reached when the device check did not already
succeed: when a device id was given, try `setSinkIdForAll(deviceId)` and on
full success return `[true, label || "user defined"]`; otherwise fall back
to the `selectAudioOutput` picker. -/
def selectTail (p : MediaPlatform) (label deviceId : String) (page : Page) :
    JsVal × Page :=
  if deviceId != "" then
    let r := setSinkIdForAll p deviceId page
    if r.1 then
      (.arr [.bool true, .str (if label != "" then label else "user defined")], r.2)
    else promptStep p r.2
  else promptStep p page

/-- `AUDIO_SelectDevice(label, deviceId)` (audio.js:25-81): fail fast when
`selectAudioOutput` is unavailable; enumerate and look the target up; when
a device was found, run `checkSinkIdOnAll(device.deviceId)` (which raises,
rejecting the whole call) and on a quiet `true` report success without
touching anything; otherwise proceed to apply the id / prompt.  The result
pairs the JavaScript return value with the page after any sink changes; an
`Except.error` is the promise rejection of the content-script call. -/
def AUDIO_SelectDevice (p : MediaPlatform) (label deviceId : String)
    (page : Page) : Except JsErr (JsVal × Page) :=
  if p.selectAudioOutputAvailable = false then
    .ok (.arr [.bool false, .str "SetSinkIdError"], page)
  else
    match findDevice (AUDIO_EnumareteDevices p.rawDevices).audiooutput label deviceId with
    | some d =>
        match checkSinkIdOnAll page (jget d "deviceId") with
        | .error e => .error e
        | .ok true => .ok (.arr [.bool true, jget d "label"], page)
        | .ok false => .ok (selectTail p label deviceId page)
    | none => .ok (selectTail p label deviceId page)

/-- JavaScript string conversion of the primitives that can reach a string
concatenation in this model. -/
def jsPrimToString : JsPrim → String
  | .undefined => "undefined"
  | .null => "null"
  | .bool b => if b then "true" else "false"
  | .num n => Nat.repr n
  | .str s => s

/-- `SelectAudio.selectDevice(tab, label, id, saveAsManual)`
(background.js:278-305), for a tab that resolves and whose content-script
injection succeeds.  Steps: substitute the per-tab stored id when both a
label and an id were given and the stored slot is truthy; run
`AUDIO_SelectDevice` in the tab (a rejected injected call is logged and
becomes a `null` result); on a truthy `result[0]`, optionally record the
manual override, then write `result[2]` (an index past the end of the
two-element result array, hence `undefined`) into the per-tab device-label
memory under `"deviceId_per_tab_" + tab.id + result[1]`. -/
def selectDevice (p : MediaPlatform) (tab : Tab) (label deviceId : String)
    (saveAsManual : Bool) (store : Store) (page : Page) :
    JsVal × Store × Page :=
  let id1 :=
    if label != "" && deviceId != "" then
      match Helpers.get store (tabDeviceKey tab.id label) (.prim .null) with
      | .prim (.str s) => if s != "" then s else deviceId
      | _ => deviceId
    else deviceId
  match AUDIO_SelectDevice p label id1 page with
  | .error _ => (.prim .null, store, page)
  | .ok (result, page1) =>
      if jsTruthy (.prim (jsIndex result 0)) then
        let store1 :=
          if saveAsManual then Helpers.add store manualKey (.num tab.id)
          else store
        let store2 := Helpers.set store1
          ("deviceId_per_tab_" ++ Nat.repr tab.id ++ jsPrimToString (jsIndex result 1))
          (.prim (jsIndex result 2))
        (result, store2, page1)
      else (result, store, page1)

/-- Decimal decoding of a digit string, used to invert `Nat.repr` when
reasoning about collisions of the concatenated store keys. -/
def decDecode (cs : List Char) : Nat :=
  cs.foldl (fun a c => 10 * a + (c.toNat - 48)) 0

/-- View a store slot as the array it holds (`[]` for non-arrays). -/
def asArr : JsVal → List JsPrim
  | .arr xs => xs
  | _ => []

/-- The manual-override list currently held in the store. -/
def manualList (s : Store) : List JsPrim :=
  asArr (storeLookup s manualKey)

/-- A platform where everything works: one labelled output device
("Headphones", id "abc"), `setSinkId` always succeeds. -/
def okPlatform : MediaPlatform :=
  { selectAudioOutputAvailable := true
    rawDevices := [⟨"audiooutput", "Headphones", "abc"⟩]
    setSinkIdOk := fun _ => true
    prompt := none
    promptErrName := "NotAllowedError" }

/-- A permission-denied platform: enumeration yields no labelled devices,
`setSinkId` rejects every id and the output picker is rejected. -/
def deniedPlatform : MediaPlatform :=
  { selectAudioOutputAvailable := true
    rawDevices := []
    setSinkIdOk := fun _ => false
    prompt := none
    promptErrName := "NotAllowedError" }

/-- An example tab. -/
def tab7 : Tab := ⟨7, "https://music.example/"⟩

/-- A store in which tab 7 is manually overridden. -/
def manualStore7 : Store :=
  Helpers.add [] manualKey (.num 7)

/-! ## Supporting lemmas -/

theorem digitChar_toNat (d : Nat) (h : d < 10) : (Nat.digitChar d).toNat = 48 + d := by
  interval_cases d <;> rfl

theorem toDigitsCore_acc (f : Nat) : ∀ (n : Nat) (acc : List Char),
    Nat.toDigitsCore 10 f n acc = Nat.toDigitsCore 10 f n [] ++ acc := by
  induction f with
  | zero => intro n acc; simp [Nat.toDigitsCore]
  | succ f ih =>
    intro n acc
    simp only [Nat.toDigitsCore]
    by_cases h : n / 10 = 0
    · simp [h]
    · simp only [h, if_false]
      rw [ih (n / 10) (Nat.digitChar (n % 10) :: acc),
        ih (n / 10) [Nat.digitChar (n % 10)]]
      simp

theorem decDecode_toDigitsCore : ∀ (n f : Nat), n < f →
    decDecode (Nat.toDigitsCore 10 f n []) = n := by
  intro n
  induction n using Nat.strong_induction_on with
  | _ n ih =>
    intro f hf
    match f, hf with
    | f + 1, hf =>
      simp only [Nat.toDigitsCore]
      by_cases h : n / 10 = 0
      · have hn : n < 10 := by omega
        simp only [h, if_true, decDecode, List.foldl]
        rw [digitChar_toNat (n % 10) (Nat.mod_lt _ (by omega))]
        omega
      · simp only [h, if_false]
        rw [toDigitsCore_acc f (n / 10) [Nat.digitChar (n % 10)]]
        have hlt : n / 10 < n := Nat.div_lt_self (by omega) (by omega)
        have hrec := ih (n / 10) hlt f (by omega)
        unfold decDecode
        rw [List.foldl_append]
        unfold decDecode at hrec
        rw [hrec]
        simp only [List.foldl]
        rw [digitChar_toNat (n % 10) (Nat.mod_lt _ (by omega))]
        omega

theorem natRepr_inj (m n : Nat) (h : Nat.repr m = Nat.repr n) : m = n := by
  have hd : Nat.toDigits 10 m = Nat.toDigits 10 n := by
    have := congrArg String.data h
    simpa [Nat.repr, List.asString] using this
  have hm := decDecode_toDigitsCore m (m + 1) (by omega)
  have hn := decDecode_toDigitsCore n (n + 1) (by omega)
  unfold Nat.toDigits at hd
  rw [← hm, ← hn, hd]

theorem tabDeviceKey_ne (t t' : Nat) (l : String) (h : t ≠ t') :
    tabDeviceKey t l ≠ tabDeviceKey t' l := by
  intro he
  apply h
  apply natRepr_inj
  have hd : "deviceId_per_tab_".data ++ ((Nat.repr t).data ++ l.data)
      = "deviceId_per_tab_".data ++ ((Nat.repr t').data ++ l.data) := by
    have := congrArg String.data he
    simpa [tabDeviceKey, String.data_append, List.append_assoc] using this
  have h2 := List.append_cancel_left hd
  have h3 := List.append_cancel_right h2
  cases hr : Nat.repr t with
  | mk d =>
    cases hr' : Nat.repr t' with
    | mk d' =>
      rw [hr, hr'] at h3
      simp only at h3
      rw [h3]

theorem storeLookup_set_self (s : Store) (k : String) (v : JsVal) :
    storeLookup (Helpers.set s k v) k = v := by
  simp [Helpers.set, storeLookup, List.find?]

theorem storeLookup_set_ne (s : Store) (k k' : String) (v : JsVal)
    (h : k' ≠ k) : storeLookup (Helpers.set s k v) k' = storeLookup s k' := by
  simp only [Helpers.set, storeLookup, List.find?]
  have : (k == k') = false := by
    simp only [beq_eq_false_iff_ne, ne_eq]
    intro hc; exact h hc.symm
  simp [this]

theorem storeLookup_add_self (s : Store) (k : String) (v : JsPrim) :
    storeLookup (Helpers.add s k v) k = .arr (asArr (storeLookup s k) ++ [v]) := by
  unfold Helpers.add
  cases h : storeLookup s k with
  | prim p => simp [asArr, storeLookup_set_self]
  | arr xs => simp [asArr, storeLookup_set_self]

/-! ## C7: device-label memory round-trip and tab isolation -/

/-- C7: `recordLabelId(T, L, I)` — `Helpers.set` under the concatenated key
`"deviceId_per_tab_" + T + L` — followed by `lookupLabelId(T, L)` —
`Helpers.get` with default `null` — returns exactly `I`; and for a
different tab id with nothing recorded for the same label, the lookup
returns `null`: entries are tab-scoped because distinct tab ids yield
distinct keys for the same label. -/
theorem C7_label_memory_roundtrip (store : Store) (t t' : Nat) (l i : String)
    (hne : t ≠ t')
    (hmiss : storeLookup store (tabDeviceKey t' l) = .prim .undefined) :
    Helpers.get (Helpers.set store (tabDeviceKey t l) (.prim (.str i)))
        (tabDeviceKey t l) (.prim .null) = .prim (.str i) ∧
    Helpers.get (Helpers.set store (tabDeviceKey t l) (.prim (.str i)))
        (tabDeviceKey t' l) (.prim .null) = .prim .null := by
  constructor
  · simp [Helpers.get, storeLookup_set_self]
  · have hk : tabDeviceKey t' l ≠ tabDeviceKey t l := tabDeviceKey_ne t' t l (Ne.symm hne)
    simp [Helpers.get, storeLookup_set_ne store _ _ _ hk, hmiss]

/-- Witness for C7 at tab ids 1 and 2, label "USB", id "abc". -/
theorem C7_witness :
    Helpers.get (Helpers.set [] (tabDeviceKey 1 "USB") (.prim (.str "abc")))
        (tabDeviceKey 1 "USB") (.prim .null) = .prim (.str "abc") ∧
    Helpers.get (Helpers.set [] (tabDeviceKey 1 "USB") (.prim (.str "abc")))
        (tabDeviceKey 2 "USB") (.prim .null) = .prim .null :=
  C7_label_memory_roundtrip [] 1 2 "USB" "abc" (by decide) (by decide)

/-! ## C10: the manual-override "set" is a duplicate-admitting list -/

/-- C10: `Helpers.add` appends the tab id unconditionally, so two manual
selections store it twice; the tab-close `Helpers.remove` deletes only the
first occurrence; hence after add, add, remove the id is still present,
`Helpers.has` still answers `true`, and the Auto-Router remains suppressed
for a reused tab id. -/
theorem C10_manual_list_semantics (s : Store) (t : Nat) (url : String)
    (patterns : List PatternRule) :
    2 ≤ (manualList (Helpers.add (Helpers.add s manualKey (.num t)) manualKey (.num t))).count (.num t)
    ∧ (manualList (Helpers.remove (Helpers.add (Helpers.add s manualKey (.num t)) manualKey (.num t)) manualKey (.num t))).count (.num t)
      = (manualList (Helpers.add (Helpers.add s manualKey (.num t)) manualKey (.num t))).count (.num t) - 1
    ∧ Helpers.has (Helpers.remove (Helpers.add (Helpers.add s manualKey (.num t)) manualKey (.num t)) manualKey (.num t)) manualKey (.num t) = true
    ∧ autoSelectDevice ⟨t, url⟩ (Helpers.remove (Helpers.add (Helpers.add s manualKey (.num t)) manualKey (.num t)) manualKey (.num t)) patterns = (false, []) := by
  have h1 : storeLookup (Helpers.add (Helpers.add s manualKey (.num t)) manualKey (.num t)) manualKey
      = .arr ((asArr (storeLookup s manualKey) ++ [JsPrim.num t]) ++ [JsPrim.num t]) := by
    rw [storeLookup_add_self, storeLookup_add_self]
    simp [asArr]
  have hcount1 : 2 ≤ (manualList (Helpers.add (Helpers.add s manualKey (.num t)) manualKey (.num t))).count (.num t) := by
    rw [manualList, h1]
    simp [asArr, List.count_append]
  have h2 : storeLookup (Helpers.remove (Helpers.add (Helpers.add s manualKey (.num t)) manualKey (.num t)) manualKey (.num t)) manualKey
      = .arr (((asArr (storeLookup s manualKey) ++ [JsPrim.num t]) ++ [JsPrim.num t]).erase (JsPrim.num t)) := by
    rw [Helpers.remove, if_neg (by simp), h1, storeLookup_set_self]
  have hcount2 : (manualList (Helpers.remove (Helpers.add (Helpers.add s manualKey (.num t)) manualKey (.num t)) manualKey (.num t))).count (.num t)
      = (manualList (Helpers.add (Helpers.add s manualKey (.num t)) manualKey (.num t))).count (.num t) - 1 := by
    rw [manualList, manualList, h1, h2]
    simp [asArr, List.count_erase_self]
  have hmem : (JsPrim.num t) ∈ (((asArr (storeLookup s manualKey) ++ [JsPrim.num t]) ++ [JsPrim.num t]).erase (JsPrim.num t)) := by
    rw [← List.count_pos_iff]
    rw [List.count_erase_self]
    simp [List.count_append]
  have hhas : Helpers.has (Helpers.remove (Helpers.add (Helpers.add s manualKey (.num t)) manualKey (.num t)) manualKey (.num t)) manualKey (.num t) = true := by
    rw [Helpers.has, if_neg (by simp), h2]
    simpa [List.contains] using List.elem_iff.mpr hmem
  refine ⟨hcount1, hcount2, hhas, ?_⟩
  unfold autoSelectDevice
  by_cases hu : url = ""
  · simp [hu]
  · simp [hu, hhas]

/-! ## C3: manual override suppresses automatic routing -/

/-- C3: whenever the tab's id is in the manual-override list, every
`autoSelectDevice` invocation returns `false` and performs no `selectDevice`
call (hence changes no element's sink and no state), whatever the persisted
rules say — until the id is removed from the list. -/
theorem C3_manual_override_suppresses_auto (tab : Tab) (store : Store)
    (patterns : List PatternRule)
    (h : Helpers.has store manualKey (.num tab.id) = true) :
    autoSelectDevice tab store patterns = (false, []) := by
  unfold autoSelectDevice
  by_cases hu : tab.url = ""
  · rw [if_pos hu]
  · rw [if_neg hu, if_pos h]

/-- Witness for C3: tab 7 was manually overridden; a matching pattern rule
triggers no selection. -/
theorem C3_witness :
    Helpers.has manualStore7 manualKey (.num 7) = true ∧
    autoSelectDevice ⟨7, "https://meet.google.com/xyz"⟩ manualStore7
        [⟨"*://meet.google.com/*", "Headphones", .str "abc"⟩] = (false, []) :=
  ⟨by decide,
   C3_manual_override_suppresses_auto ⟨7, "https://meet.google.com/xyz"⟩
     manualStore7 [⟨"*://meet.google.com/*", "Headphones", .str "abc"⟩] (by decide)⟩

/-! ## C4 and C5: the rule loop -/

theorem autoSelectLoop_inert_middle (tab : Tab) (r : PatternRule)
    (h : ruleInert r = true) : ∀ (pre post : List PatternRule),
    autoSelectLoop tab (pre ++ r :: post) = autoSelectLoop tab (pre ++ post) := by
  intro pre
  induction pre with
  | nil => intro post; simp [autoSelectLoop, h]
  | cons q pre ih =>
    intro post
    simp only [List.cons_append, autoSelectLoop, List.append_eq]
    rw [ih post]

theorem autoSelectLoop_skip_front (tab : Tab) : ∀ (pre rest : List PatternRule),
    (∀ q ∈ pre, ruleInert q = true ∨ wildcardMatch q.urlPattern tab.url = false) →
    autoSelectLoop tab (pre ++ rest) = autoSelectLoop tab rest := by
  intro pre
  induction pre with
  | nil => intro rest _; rfl
  | cons q pre ih =>
    intro rest hpre
    have hq := hpre q (List.mem_cons_self q pre)
    have htail : ∀ x ∈ pre, ruleInert x = true ∨ wildcardMatch x.urlPattern tab.url = false :=
      fun x hx => hpre x (List.mem_cons_of_mem q hx)
    simp only [List.cons_append, autoSelectLoop, List.append_eq]
    by_cases hi : ruleInert q = true
    · rw [if_pos hi]; exact ih rest htail
    · rw [if_neg hi]
      rcases hq with h | h
      · exact absurd h hi
      · rw [if_neg (by simp [h])]
        exact ih rest htail

/-- C4: a persisted rule with empty `urlPattern`, empty `audioOutput` or
`audioOutput == "Default"` is inert: wherever it sits in the rule list,
`autoSelectDevice` behaves exactly as if the rule were absent — it never
triggers a selection (even when its pattern matches the tab URL) and
iteration continues with the remaining rules. -/
theorem C4_inert_rule_skipped (tab : Tab) (store : Store)
    (pre post : List PatternRule) (r : PatternRule)
    (h : ruleInert r = true) :
    autoSelectDevice tab store (pre ++ r :: post)
      = autoSelectDevice tab store (pre ++ post) := by
  unfold autoSelectDevice
  by_cases hu : tab.url = ""
  · simp [hu]
  · by_cases hm : Helpers.has store manualKey (.num tab.id) = true
    · simp [hu, hm]
    · simp [hu, hm, autoSelectLoop_inert_middle tab r h pre post]

/-- Witness for C4: a matching "Default" rule ahead of a live rule changes
nothing. -/
theorem C4_witness :
    ruleInert ⟨"*://meet.google.com/*", "Default", .null⟩ = true ∧
    autoSelectDevice ⟨3, "https://meet.google.com/a"⟩ []
        ([] ++ (⟨"*://meet.google.com/*", "Default", .null⟩ :
            PatternRule) :: [⟨"*://meet.google.com/*", "Headphones", .str "abc"⟩])
      = autoSelectDevice ⟨3, "https://meet.google.com/a"⟩ []
          ([] ++ [⟨"*://meet.google.com/*", "Headphones", .str "abc"⟩]) :=
  ⟨by decide,
   C4_inert_rule_skipped ⟨3, "https://meet.google.com/a"⟩ [] []
     [⟨"*://meet.google.com/*", "Headphones", .str "abc"⟩]
     ⟨"*://meet.google.com/*", "Default", .null⟩ (by decide)⟩

/-- C5: with a reachable tab (non-empty URL, no manual override), when every
rule before `r` is inert or fails the glob match and `r` is live and
matches, `autoSelectDevice` returns `true` having issued exactly one
`selectDevice` call — for `r`, with `saveAsManual = false` — and the result
does not depend on the rules after `r` (they are never evaluated). -/
theorem C5_first_match_wins (tab : Tab) (store : Store)
    (pre post : List PatternRule) (r : PatternRule)
    (hurl : tab.url ≠ "")
    (hman : Helpers.has store manualKey (.num tab.id) = false)
    (hpre : ∀ q ∈ pre, ruleInert q = true ∨ wildcardMatch q.urlPattern tab.url = false)
    (hr : ruleInert r = false)
    (hm : wildcardMatch r.urlPattern tab.url = true) :
    autoSelectDevice tab store (pre ++ r :: post)
      = (true, [{ tabId := tab.id, label := r.audioOutput,
                  deviceId := r.audioOutputId, saveAsManual := false }]) := by
  unfold autoSelectDevice
  rw [if_neg hurl, if_neg (by simp [hman])]
  rw [autoSelectLoop_skip_front tab pre (r :: post) hpre]
  simp [autoSelectLoop, hr, hm]

/-- Witness for C5: one non-matching rule before the live matching rule,
one rule after it. -/
theorem C5_witness :
    ruleInert ⟨"*://meet.google.com/*", "Headphones", .str "abc"⟩ = false ∧
    wildcardMatch "*://meet.google.com/*" "https://meet.google.com/xyz" = true ∧
    autoSelectDevice ⟨5, "https://meet.google.com/xyz"⟩ []
        ([⟨"*://example.com/*", "Speakers", .str "spk"⟩]
          ++ (⟨"*://meet.google.com/*", "Headphones", .str "abc"⟩ :
              PatternRule) :: [⟨"*", "Other", .str "o"⟩])
      = (true, [{ tabId := 5, label := "Headphones",
                  deviceId := .str "abc", saveAsManual := false }]) :=
  ⟨by decide, by decide,
   C5_first_match_wins ⟨5, "https://meet.google.com/xyz"⟩ []
     [⟨"*://example.com/*", "Speakers", .str "spk"⟩]
     [⟨"*", "Other", .str "o"⟩]
     ⟨"*://meet.google.com/*", "Headphones", .str "abc"⟩
     (by decide) (by decide) (by decide) (by decide) (by decide)⟩

/-! ## C1: no durable tagging, no lifecycle watchers -/

theorem setSinkIdForAll_map_attrs (p : MediaPlatform) (id : String) (page : Page) :
    (setSinkIdForAll p id page).2.map MediaElem.attrs = page.map MediaElem.attrs := by
  simp only [setSinkIdForAll, List.map_map]
  apply List.map_congr_left
  intro el _
  simp only [Function.comp_apply]
  split <;> rfl

theorem setSinkIdForAll_map_handlers (p : MediaPlatform) (id : String) (page : Page) :
    (setSinkIdForAll p id page).2.map MediaElem.handlers = page.map MediaElem.handlers := by
  simp only [setSinkIdForAll, List.map_map]
  apply List.map_congr_left
  intro el _
  simp only [Function.comp_apply]
  split <;> rfl

/-- C1 counterexample: a fresh element the Sink Router routes to `"X"`
carries no attribute and no handlers; when its stream fires `emptied` and
then `playing`, its sink id is the platform default `""`, not `"X"` — the
routing is not restored without a new external call. -/
theorem C1_counterexample :
    (setSinkIdForAll okPlatform "X" [⟨"", [], []⟩]).2 = [⟨"X", [], []⟩] ∧
    (setSinkIdForAll okPlatform "X" [⟨"", [], []⟩]).2.map
        (fun el => firePlaying (fireEmptied el)) = [⟨"", [], []⟩] := by
  decide

/-- C1 (amended): applying a sink id to a page only rewrites `sinkId` — it
writes no durable attribute and registers no stream-lifecycle handlers on
any element — and an element carrying no handlers that fires `emptied` then
`playing` ends on the platform default sink, so a previously applied id is
not re-applied without a new `selectDevice`/`applyToTab` call. -/
theorem C1_sink_watcher_amended (p : MediaPlatform) (id : String) (page : Page)
    (el : MediaElem) (h : el.handlers = []) :
    (setSinkIdForAll p id page).2.map MediaElem.attrs = page.map MediaElem.attrs ∧
    (setSinkIdForAll p id page).2.map MediaElem.handlers = page.map MediaElem.handlers ∧
    (firePlaying (fireEmptied el)).sinkId = "" := by
  refine ⟨setSinkIdForAll_map_attrs p id page, setSinkIdForAll_map_handlers p id page, ?_⟩
  simp [firePlaying, fireEmptied, h]

/-- Witness for C1 (amended) on a one-element page routed to `"X"`. -/
theorem C1_amended_witness :
    (setSinkIdForAll okPlatform "X" [⟨"", [], []⟩]).2.map MediaElem.attrs
        = [(⟨"", [], []⟩ : MediaElem)].map MediaElem.attrs ∧
    (setSinkIdForAll okPlatform "X" [⟨"", [], []⟩]).2.map MediaElem.handlers
        = [(⟨"", [], []⟩ : MediaElem)].map MediaElem.handlers ∧
    (firePlaying (fireEmptied ⟨"X", [], []⟩)).sinkId = "" :=
  C1_sink_watcher_amended okPlatform "X" [⟨"", [], []⟩] ⟨"X", [], []⟩ rfl

/-! ## C2: the device-label memory write stores `result[2]` of a two-element result -/

/-- C2 evaluated at the failing input: a selection for tab 7, label
"Headphones", id "abc" resolves successfully (truthy `result[0]`), yet the
per-tab memory slot ends up holding `undefined` — `result[2]` of the
two-element `[true, label]` result — so the subsequent lookup for the same
tab and resolved label returns `null`, not the applied id "abc". -/
theorem C2_memory_write_code_bug :
    jsTruthy (.prim (jsIndex
        (selectDevice okPlatform tab7 "Headphones" "abc" false [] [⟨"", [], []⟩]).1 0)) = true ∧
    storeLookup (selectDevice okPlatform tab7 "Headphones" "abc" false [] [⟨"", [], []⟩]).2.1
        (tabDeviceKey 7 "Headphones") = .prim .undefined ∧
    Helpers.get (selectDevice okPlatform tab7 "Headphones" "abc" false [] [⟨"", [], []⟩]).2.1
        (tabDeviceKey 7 "Headphones") (.prim .null) = .prim .null := by
  decide

/-! ## C6: checkSinkIdOnAll never returns a boolean -/

/-- C6 counterexample: on a page with no media elements (where the claim
asserts the check returns `false` and never throws), `checkSinkIdOnAll`
raises a `TypeError` — `NodeList` has no `every` method. -/
theorem C6_counterexample :
    checkSinkIdOnAll ([] : Page) (.str "abc")
      = .error (.typeError "document.querySelectorAll(...).every is not a function") := rfl

/-- C6 (amended): `checkSinkIdOnAll` never returns a boolean at all — every
invocation, whatever the page contents and id, raises a `TypeError`; and
whenever `AUDIO_SelectDevice` finds a device by the enumeration lookup, the
check makes the whole call reject. -/
theorem C6_check_amended (page : Page) (id : JsPrim) (p : MediaPlatform)
    (label deviceId : String)
    (havail : p.selectAudioOutputAvailable = true)
    (hfound : (findDevice (AUDIO_EnumareteDevices p.rawDevices).audiooutput
        label deviceId).isSome = true) :
    checkSinkIdOnAll page id
      = .error (.typeError "document.querySelectorAll(...).every is not a function") ∧
    ∃ e, AUDIO_SelectDevice p label deviceId page = .error e := by
  refine ⟨rfl, ?_⟩
  obtain ⟨d, hd⟩ := Option.isSome_iff_exists.mp hfound
  refine ⟨.typeError "document.querySelectorAll(...).every is not a function", ?_⟩
  unfold AUDIO_SelectDevice
  rw [if_neg (by simp [havail]), hd]
  rfl

/-- Witness for C6 (amended): the label lookup finds "Headphones", so the
selection call rejects. -/
theorem C6_amended_witness :
    checkSinkIdOnAll [(⟨"x", [], []⟩ : MediaElem)] (.str "q")
      = .error (.typeError "document.querySelectorAll(...).every is not a function") ∧
    ∃ e, AUDIO_SelectDevice okPlatform "Head" "" [⟨"x", [], []⟩] = .error e :=
  C6_check_amended [⟨"x", [], []⟩] (.str "q") okPlatform "Head" "" rfl (by decide)

/-! ## C8: the enumeration lookup by stored id reads a property that is never set -/

/-- C8 evaluated at the failing input: enumeration produces a device whose
id property is `id` (value "abc"), yet `findDevice` with stored id "abc"
finds nothing, because the predicate reads `device.deviceId`, which is
absent on the enumerated `{label, id}` objects; the label-substring branch
(taken only when no id is given) does find the device. -/
theorem C8_resolver_match_code_bug :
    ((AUDIO_EnumareteDevices [⟨"audiooutput", "USB Headphones", "abc"⟩]).audiooutput.map
        (fun d => jget d "id")) = [.str "abc"] ∧
    findDevice (AUDIO_EnumareteDevices
        [⟨"audiooutput", "USB Headphones", "abc"⟩]).audiooutput "USB Headphones" "abc" = none ∧
    findDevice (AUDIO_EnumareteDevices
        [⟨"audiooutput", "USB Headphones", "abc"⟩]).audiooutput "USB" ""
      = some (enumEntry ⟨"audiooutput", "USB Headphones", "abc"⟩) := by
  decide

/-! ## C9: behaviour when enumeration yields zero labelled devices -/

/-- C9 counterexample: under the permission-denied platform (zero labelled
devices), a call that passes a non-empty id to a page whose only media
element already reports that sink id returns a truthy success tuple
`[true, "user defined"]`, not a falsy/failure tuple. -/
theorem C9_counterexample :
    (AUDIO_EnumareteDevices deniedPlatform.rawDevices).audiooutput = [] ∧
    AUDIO_SelectDevice deniedPlatform "" "abc" [⟨"abc", [], []⟩]
      = .ok (.arr [.bool true, .str "user defined"], [⟨"abc", [], []⟩]) ∧
    jsTruthy (.prim (jsIndex (.arr [.bool true, .str "user defined"]) 0)) = true :=
  ⟨rfl, rfl, rfl⟩

/-- C9 (amended): when enumeration yields zero labelled devices and the
platform rejects both `setSinkId` and the output picker, `AUDIO_SelectDevice`
never throws and leaves every element's sink id unchanged; the returned
tuple is truthy exactly when a non-empty device id was passed and every
media element (vacuously, none) already reports that sink id — otherwise it
is falsy. -/
theorem C9_selectDevice_amended (p : MediaPlatform) (label deviceId : String)
    (page : Page)
    (havail : p.selectAudioOutputAvailable = true)
    (henum : (AUDIO_EnumareteDevices p.rawDevices).audiooutput = [])
    (hsink : ∀ s, p.setSinkIdOk s = false)
    (hprompt : p.prompt = none) :
    ∃ v, AUDIO_SelectDevice p label deviceId page = .ok (v, page) ∧
      (jsTruthy (.prim (jsIndex v 0)) = true ↔
        deviceId ≠ "" ∧ ∀ el ∈ page, el.sinkId = deviceId) := by
  have hfind : findDevice (AUDIO_EnumareteDevices p.rawDevices).audiooutput
      label deviceId = none := by
    rw [henum]; rfl
  have hsets : ∀ id, setSinkIdForAll p id page
      = (page.all (fun el => el.sinkId == id), page) := by
    intro id
    simp [setSinkIdForAll, hsink]
  have hst : selectTail p label deviceId page
      = (if deviceId != "" && page.all (fun el => el.sinkId == deviceId)
         then (.arr [.bool true, .str (if label != "" then label else "user defined")], page)
         else (.arr [.bool false, .str p.promptErrName], page)) := by
    cases hid : deviceId != "" with
    | false =>
        simp [selectTail, promptStep, hprompt, hid]
    | true =>
        cases hall : page.all (fun el => el.sinkId == deviceId) with
        | false => simp [selectTail, promptStep, hprompt, hsets, hid, hall]
        | true => simp [selectTail, promptStep, hprompt, hsets, hid, hall]
  have hmain : AUDIO_SelectDevice p label deviceId page
      = Except.ok (selectTail p label deviceId page) := by
    unfold AUDIO_SelectDevice
    rw [if_neg (by simp [havail]), hfind]
  rw [hmain, hst]
  by_cases hc : (deviceId != "" && page.all (fun el => el.sinkId == deviceId)) = true
  · rw [if_pos hc]
    refine ⟨_, rfl, ?_⟩
    simp only [Bool.and_eq_true, bne_iff_ne, ne_eq, List.all_eq_true, beq_iff_eq] at hc
    simp [jsTruthy, jsIndex, hc.1]
    exact hc.2
  · rw [if_neg hc]
    refine ⟨_, rfl, ?_⟩
    constructor
    · intro h
      exact absurd h (by simp [jsTruthy, jsIndex])
    · intro h
      exfalso
      apply hc
      simp only [Bool.and_eq_true, bne_iff_ne, ne_eq, List.all_eq_true, beq_iff_eq]
      exact ⟨h.1, h.2⟩

/-- Witness for C9 (amended): a no-id call on a page whose element is on
another sink returns a falsy tuple and changes nothing. -/
theorem C9_amended_witness :
    ∃ v, AUDIO_SelectDevice deniedPlatform "Head" "" [⟨"x", [], []⟩]
        = .ok (v, [⟨"x", [], []⟩]) ∧
      (jsTruthy (.prim (jsIndex v 0)) = true ↔
        "" ≠ "" ∧ ∀ el ∈ [(⟨"x", [], []⟩ : MediaElem)], el.sinkId = "") :=
  C9_selectDevice_amended deniedPlatform "Head" "" [⟨"x", [], []⟩]
    rfl rfl (fun _ => rfl) rfl

end AudioSelector
